import Mathlib

/-!
Verification of the resilience layer of the llama-fs automation agent.

Each section shallowly embeds one component of the source, keeping the
source's names and control flow:

* `PerformanceOptimizer` — the bounded-concurrency batch queue
  (`scheduleOperation` / `processQueue`).
* `ApiService` — `fetchWithRetry` with backoff and cache fallback.
* `Watchdog` — per-service failure counting with recovery cooldown.
* `SystemProtection` — memory monitoring (`checkMemoryUsage`) and file
  integrity checking (`checkFileIntegrity` / `restoreFromBackup`).
* `ErrorRecovery` — `withRetry` and per-service failure accounting
  (`recordFailure` / `initiateRecovery`).

Time stamps are naturals (milliseconds since epoch); file contents are
identified with their SHA-256 hashes (naturals), using the standard
collision-freeness abstraction; JSON payloads held in the response cache
are abstracted to an arbitrary type and the JavaScript truthiness test
`if (cachedData)` is modelled as presence of the cache entry.
-/

/-! ## PerformanceOptimizer (performance_optimizer module)

`scheduleOperation` pushes `{operation, filePath, metadata, resolve,
reject, addedTime}` onto `this.queue` and kicks `processQueue` when no
drain is in progress.  `processQueue` loops while the queue is nonempty
and `activeOperations < maxConcurrentOperations`; each iteration splices
`min(queue.length, batchSize)` items off the FRONT of the queue, sorts
the batch (priority descending, then `addedTime` ascending), dispatches
the whole batch in parallel (each item increments `activeOperations`
synchronously before its first await), and `await`s `Promise.allSettled`
before the next iteration.  Hence `activeOperations` is `0` whenever the
loop guard is evaluated, and during a batch it equals the batch length. -/

structure POConfig where
  maxConcurrentOperations : Nat
  batchSize : Nat
deriving Repr, DecidableEq

structure QueueItem where
  priority : Nat
  addedTime : Nat
deriving Repr, DecidableEq

/-- The batch comparator of `processQueue`: first by `metadata.priority`
descending, then by `addedTime` ascending (oldest first). -/
def batchBefore (a b : QueueItem) : Bool :=
  if a.priority ≠ b.priority then b.priority < a.priority
  else a.addedTime ≤ b.addedTime

/-- Insertion sort with the batch comparator (the JS engine sort is
stable; insertion sort is stable too). -/
def sortBatch (l : List QueueItem) : List QueueItem :=
  l.foldr insertItem []
where
  insertItem (x : QueueItem) : List QueueItem → List QueueItem
    | [] => [x]
    | y :: ys => if batchBefore x y then x :: y :: ys else y :: insertItem x ys

/-- The successive batches dispatched by `processQueue` on a queue, in
order.  A batch of `min(queue.length, batchSize)` items is spliced off
the front, fully dispatched in parallel, and fully settled before the
loop guard `queue.length > 0 && activeOperations < maxConcurrentOperations`
is evaluated again; at every evaluation of the guard `activeOperations = 0`.
The degenerate configurations `maxConcurrentOperations = 0` (guard never
passes) and `batchSize = 0` (the JS code would spin forever on empty
batches; excluded from the model) dispatch nothing. -/
def processQueueAux (cfg : POConfig) : Nat → List QueueItem → List (List QueueItem)
  | 0, _ => []
  | _, [] => []
  | fuel + 1, x :: xs =>
    if 0 < cfg.maxConcurrentOperations ∧ 0 < cfg.batchSize then
      let n := min (x :: xs).length cfg.batchSize
      sortBatch ((x :: xs).take n) :: processQueueAux cfg fuel ((x :: xs).drop n)
    else []

/-- Entry point: the queue length is enough fuel because every iteration
removes at least one item (`batchSize ≥ 1` under the guard). -/
def processQueue (cfg : POConfig) (queue : List QueueItem) : List (List QueueItem) :=
  processQueueAux cfg queue.length queue

/-- Peak value reached by `activeOperations` while the queue drains:
each batch runs wholly in parallel, so the peak during a batch is its
length, and between batches the count returns to zero. -/
def peakActive (cfg : POConfig) (queue : List QueueItem) : Nat :=
  ((processQueue cfg queue).map List.length).foldr max 0

/-- Claim C1 (code evaluated at the failing input): submitting 25
operations with `maxConcurrentOperations = 4` and `batchSize = 20`
drives `activeOperations` up to 20, which exceeds the concurrency
bound 4 claimed by the spec — the whole first batch of 20 is dispatched
in parallel and the `activeOperations < maxConcurrentOperations` guard
is only consulted between fully-settled batches. -/
theorem C1_batch_dispatch_exceeds_maxConcurrency :
    peakActive ⟨4, 20⟩ (List.replicate 25 ⟨0, 0⟩) = 20 ∧ 4 < 20 := by
  constructor
  · rfl
  · decide

/-! ## ApiService (service module)

`fetchWithRetry(endpoint, options, retryCount)`:
* if `options.cacheFirst` and `getFromCache(endpoint)` is truthy, return
  `{data, fromCache: true, timestamp: getCacheTimestamp(endpoint)}`
  without touching the network;
* otherwise issue the HTTP request; on success, `cacheResponse` and
  return `response.data`;
* on error, if `retryCount < retryDelays.length` and the error is
  retryable (`!error.response || error.response.status >= 500`), sleep
  `retryDelays[retryCount]` and recurse with `retryCount + 1`;
* otherwise fall back to the cache if an entry exists, else rethrow.

`retryDelays = [1000, 2000, 5000, 10000, 30000]`.  The cache holds one
`{data, timestamp}` record per endpoint; an attempt is modelled as a
function from the attempt index (the `retryCount` at which it is made)
to its result. -/

/-- An axios failure: either no response at all (network error /
timeout) or an HTTP error response with a status code. -/
inductive FetchError where
  | network : FetchError
  | http : Nat → FetchError
deriving Repr, DecidableEq

/-- `isRetryableError`: `!error.response || error.response.status >= 500`. -/
def isRetryableError : FetchError → Bool
  | .network => true
  | .http status => 500 ≤ status

/-- One cache record `{data, timestamp}` as written by `cacheResponse`. -/
structure CacheEntry (α : Type) where
  data : α
  timestamp : Nat
deriving Repr, DecidableEq

/-- What `fetchWithRetry` hands back when it returns normally: either
the fresh `response.data`, or the cache-fallback object
`{data, fromCache: true, timestamp}`. -/
inductive FetchValue (α : Type) where
  | fresh : α → FetchValue α
  | cached : α → Nat → FetchValue α
deriving Repr, DecidableEq

/-- Full observable outcome of one `fetchWithRetry` call: the returned
value or thrown error, the number of network attempts actually made,
the backoff delays slept (in order), and the cache state afterwards. -/
structure FetchOutcome (α : Type) where
  result : Except FetchError (FetchValue α)
  attemptsMade : Nat
  delays : List Nat
  finalCache : Option (CacheEntry α)
deriving Repr

/-- The configured backoff table of `ApiService`:
`this.retryDelays = [1000, 2000, 5000, 10000, 30000]`. -/
def retryDelays : List Nat := [1000, 2000, 5000, 10000, 30000]


/-- The cache-first early return of `fetchWithRetry`: the stored
`{data, fromCache: true, timestamp}` object, no network attempt. -/
def cacheFirstHit (entry : CacheEntry α) (cache : Option (CacheEntry α)) : FetchOutcome α :=
  { result := .ok (.cached entry.data entry.timestamp)
    attemptsMade := 0, delays := [], finalCache := cache }

/-- A successful request at the end of the `try` block: the response
data is returned and `cacheResponse` rewrites the cache entry, stamped
with the current time. -/
def freshResult (payload : α) (now : Nat) : FetchOutcome α :=
  { result := .ok (.fresh payload)
    attemptsMade := 1, delays := []
    finalCache := some ⟨payload, now⟩ }

/-- The tail of the catch handler once no further retry will happen:
return the cached `{data, fromCache: true, timestamp}` if
`getFromCache` finds an entry, otherwise rethrow the error. -/
def cacheFallback (e : FetchError) (cache : Option (CacheEntry α)) : FetchOutcome α :=
  match cache with
  | some entry =>
    { result := .ok (.cached entry.data entry.timestamp)
      attemptsMade := 1, delays := [], finalCache := cache }
  | none =>
    { result := .error e
      attemptsMade := 1, delays := [], finalCache := cache }

/-- One retry step of the catch handler: sleep `retryDelays[retryCount]`
and recurse; the recursive outcome `rest` is returned with this
attempt and this delay accounted. -/
def retryStep (retryCount : Nat) (rest : FetchOutcome α) : FetchOutcome α :=
  { result := rest.result
    attemptsMade := rest.attemptsMade + 1
    delays := retryDelays.getD retryCount 0 :: rest.delays
    finalCache := rest.finalCache }

/-- Shallow embedding of `ApiService.fetchWithRetry`.  `attempt i` is
the result of the network request issued at recursion depth
`retryCount = i`; `cache` is the cache entry for the endpoint (`none`
when `getFromCache` finds nothing); `now` stamps a refreshed cache
entry.  The structural recursion on the remaining retry budget
`retryDelays.length - retryCount` mirrors the JS recursion, which
retries exactly while `retryCount < this.retryDelays.length` and the
error `isRetryableError`. -/
def fetchWithRetryAux (attempt : Nat → Except FetchError α) (cacheFirst : Bool)
    (cache : Option (CacheEntry α)) (now : Nat) :
    (budget : Nat) → (retryCount : Nat) → FetchOutcome α
  | 0 => fun retryCount =>
    match cacheFirst, cache with
    | true, some entry => cacheFirstHit entry cache
    | _, _ =>
      match attempt retryCount with
      | .ok payload => freshResult payload now
      | .error e => cacheFallback e cache
  | budget + 1 => fun retryCount =>
    match cacheFirst, cache with
    | true, some entry => cacheFirstHit entry cache
    | _, _ =>
      match attempt retryCount with
      | .ok payload => freshResult payload now
      | .error e =>
        if isRetryableError e then
          retryStep retryCount (fetchWithRetryAux attempt cacheFirst cache now budget (retryCount + 1))
        else cacheFallback e cache

/-- `fetchWithRetry(endpoint, options)` starts at `retryCount = 0`, so
the retry budget is the full `retryDelays.length`. -/
def fetchWithRetry (attempt : Nat → Except FetchError α) (cacheFirst : Bool)
    (cache : Option (CacheEntry α)) (now : Nat) : FetchOutcome α :=
  fetchWithRetryAux attempt cacheFirst cache now retryDelays.length 0

/-- The catch tail throws only when the cache is empty. -/
theorem cacheFallback_error_no_cache (e e2 : FetchError) (cache : Option (CacheEntry α)) :
    (cacheFallback e cache).result = .error e2 → cache = none := by
  intro h
  cases cache with
  | none => rfl
  | some entry => simp [cacheFallback] at h

/-- On a result built by `fetchWithRetryAux`, a thrown error can only
come out of the no-cache branch of the catch handler: every branch that
rethrows has already found `getFromCache` empty. -/
theorem fetchWithRetryAux_error_no_cache (attempt : Nat → Except FetchError α)
    (cacheFirst : Bool) (cache : Option (CacheEntry α)) (now : Nat) :
    ∀ budget retryCount e,
      (fetchWithRetryAux attempt cacheFirst cache now budget retryCount).result =
        .error e → cache = none := by
  intro budget
  induction budget with
  | zero =>
    intro r e h
    simp only [fetchWithRetryAux] at h
    split at h
    · simp [cacheFirstHit] at h
    · split at h
      · simp [freshResult] at h
      · exact cacheFallback_error_no_cache _ _ _ h
  | succ b ih =>
    intro r e h
    simp only [fetchWithRetryAux] at h
    split at h
    · simp [cacheFirstHit] at h
    · split at h
      · simp [freshResult] at h
      · split at h
        · exact ih (r + 1) e h
        · exact cacheFallback_error_no_cache _ _ _ h

/-- All-retryable-failure runs of `fetchWithRetryAux` with an empty
cache: with `budget + retryCount = retryDelays.length`, the run makes
`budget + 1` network attempts, sleeps exactly the configured delays
from index `retryCount` on, and ends in a thrown error. -/
theorem fetchWithRetryAux_all_fail (attempt : Nat → Except FetchError α) (now : Nat)
    (hfail : ∀ i, ∃ e, attempt i = .error e ∧ isRetryableError e = true) :
    ∀ budget retryCount, budget + retryCount = retryDelays.length →
      (fetchWithRetryAux attempt false (none : Option (CacheEntry α)) now
          budget retryCount).attemptsMade = budget + 1 ∧
      (fetchWithRetryAux attempt false (none : Option (CacheEntry α)) now
          budget retryCount).delays = retryDelays.drop retryCount ∧
      ∃ e, (fetchWithRetryAux attempt false (none : Option (CacheEntry α)) now
          budget retryCount).result = .error e := by
  intro budget
  induction budget with
  | zero =>
    intro r hr
    obtain ⟨e, he, hret⟩ := hfail r
    have hdrop : retryDelays.drop r = [] := by
      apply List.drop_eq_nil_of_le
      omega
    simp only [fetchWithRetryAux, he, hdrop]
    exact ⟨rfl, rfl, e, rfl⟩
  | succ b ih =>
    intro r hr
    obtain ⟨e, he, hret⟩ := hfail r
    have hrlt : r < retryDelays.length := by omega
    obtain ⟨ha, hd, e2, hres⟩ := ih (r + 1) (by omega)
    have hdrop : retryDelays.drop r = retryDelays.getD r 0 :: retryDelays.drop (r + 1) := by
      rw [List.getD_eq_getElem retryDelays 0 hrlt]
      exact List.drop_eq_getElem_cons hrlt
    simp only [fetchWithRetryAux, he, hret, if_pos, retryStep]
    refine ⟨by simp [ha], by simp [hd, hdrop], e2, by simp [hres]⟩

/-- Claim C2, counterexample: with every attempt failing with a network
error and no cache entry present, the call makes 6 network attempts
(the initial one plus one retry per configured delay), not the 5 the
claim states; the delays slept between consecutive attempts are the
configured 1s/2s/5s/10s/30s. -/
theorem C2_counterexample_six_attempts :
    (fetchWithRetry (fun _ => Except.error FetchError.network) false
        (none : Option (CacheEntry Nat)) 0).attemptsMade = 6 ∧
    (6 : Nat) ≠ 5 ∧
    (fetchWithRetry (fun _ => Except.error FetchError.network) false
        (none : Option (CacheEntry Nat)) 0).delays = [1000, 2000, 5000, 10000, 30000] :=
  ⟨rfl, by decide, rfl⟩

/-- Claim C2 as amended: when every network attempt fails with a
retryable error (network error or 5xx) and no cache entry exists for
the endpoint, `fetchWithRetry` fails outward after exactly
`retryDelays.length + 1 = 6` attempts — the initial attempt plus one
retry per configured delay — sleeping the configured delays of
1s/2s/5s/10s/30s between consecutive attempts. -/
theorem C2_exhaustion_attempt_count (attempt : Nat → Except FetchError α) (now : Nat)
    (hfail : ∀ i, ∃ e, attempt i = .error e ∧ isRetryableError e = true) :
    (fetchWithRetry attempt false (none : Option (CacheEntry α)) now).attemptsMade =
        retryDelays.length + 1 ∧
    (fetchWithRetry attempt false (none : Option (CacheEntry α)) now).delays =
        [1000, 2000, 5000, 10000, 30000] ∧
    ∃ e, (fetchWithRetry attempt false (none : Option (CacheEntry α)) now).result =
        .error e := by
  obtain ⟨ha, hd, e, hres⟩ :=
    fetchWithRetryAux_all_fail attempt now hfail retryDelays.length 0 (by simp)
  exact ⟨ha, by simpa using hd, e, hres⟩

/-- Witness for `C2_exhaustion_attempt_count` at the concrete
always-network-error attempt sequence. -/
theorem C2_exhaustion_attempt_count_witness :
    (fetchWithRetry (fun _ => Except.error FetchError.network) false
        (none : Option (CacheEntry Nat)) 0).attemptsMade = retryDelays.length + 1 :=
  (C2_exhaustion_attempt_count (fun _ => Except.error FetchError.network) 0
    (fun _ => ⟨FetchError.network, rfl, rfl⟩)).1

/-- All-retryable-failure runs with a cache entry present: the catch
handler's fallback returns the cached `{data, fromCache: true,
timestamp}`. -/
theorem fetchWithRetryAux_all_fail_cached (attempt : Nat → Except FetchError α)
    (now : Nat) (entry : CacheEntry α)
    (hfail : ∀ i, ∃ e, attempt i = .error e ∧ isRetryableError e = true) :
    ∀ budget retryCount,
      (fetchWithRetryAux attempt false (some entry) now budget retryCount).result =
        .ok (.cached entry.data entry.timestamp) := by
  intro budget
  induction budget with
  | zero =>
    intro r
    obtain ⟨e, he, hret⟩ := hfail r
    simp only [fetchWithRetryAux, he]
    rfl
  | succ b ih =>
    intro r
    obtain ⟨e, he, hret⟩ := hfail r
    simp only [fetchWithRetryAux, he, hret, if_pos, retryStep]
    exact ih (r + 1)

/-- Claim C3: a `fetchWithRetry` call that exhausts all its retry
attempts (every attempt failing with a retryable error) while a cache
entry exists returns the cached payload marked `fromCache: true` with
the original cache timestamp; and in full generality an error is
thrown outward only when no cache entry exists. -/
theorem C3_cache_fallback_on_exhaustion (attempt : Nat → Except FetchError α)
    (now : Nat) (entry : CacheEntry α)
    (hfail : ∀ i, ∃ e, attempt i = .error e ∧ isRetryableError e = true) :
    (fetchWithRetry attempt false (some entry) now).result =
      .ok (.cached entry.data entry.timestamp) ∧
    ∀ (attempt2 : Nat → Except FetchError α) (cacheFirst : Bool)
      (cache : Option (CacheEntry α)) (now2 : Nat) (e : FetchError),
      (fetchWithRetry attempt2 cacheFirst cache now2).result = .error e →
        cache = none := by
  constructor
  · exact fetchWithRetryAux_all_fail_cached attempt now entry hfail retryDelays.length 0
  · intro attempt2 cacheFirst cache now2 e h
    exact fetchWithRetryAux_error_no_cache attempt2 cacheFirst cache now2
      retryDelays.length 0 e h

/-- Witness for `C3_cache_fallback_on_exhaustion`: always-network-error
attempts with the cache entry `{data: 42, timestamp: 7}`. -/
theorem C3_cache_fallback_on_exhaustion_witness :
    (fetchWithRetry (fun _ => Except.error FetchError.network) false
        (some (⟨42, 7⟩ : CacheEntry Nat)) 0).result =
      .ok (.cached 42 7) :=
  (C3_cache_fallback_on_exhaustion (fun _ => Except.error FetchError.network) 0
    ⟨42, 7⟩ (fun _ => ⟨FetchError.network, rfl, rfl⟩)).1

/-- Claim C4, counterexample: the first attempt failing with HTTP 404
while a cache entry `{data: 42, timestamp: 7}` exists, the call does
NOT propagate the failure — it returns the cached payload. -/
theorem C4_counterexample_cache_swallows_4xx :
    (fetchWithRetry (fun _ => Except.error (FetchError.http 404)) false
        (some (⟨42, 7⟩ : CacheEntry Nat)) 0).result =
      .ok (.cached 42 7) ∧
    (fetchWithRetry (fun _ => Except.error (FetchError.http 404)) false
        (some (⟨42, 7⟩ : CacheEntry Nat)) 0).result ≠
      .error (FetchError.http 404) :=
  ⟨rfl, by intro h; exact Except.noConfusion h⟩

/-- Claim C4 as amended: a first attempt failing with a 4xx response is
never retried and incurs no backoff delay; the call then returns the
cached payload when a cache entry exists, and only when none exists
does the failure propagate immediately to the caller. -/
theorem C4_non_retryable_fails_fast (attempt : Nat → Except FetchError α)
    (cache : Option (CacheEntry α)) (now : Nat) (status : Nat)
    (h400 : 400 ≤ status) (h500 : status < 500)
    (h0 : attempt 0 = .error (.http status)) :
    (fetchWithRetry attempt false cache now).attemptsMade = 1 ∧
    (fetchWithRetry attempt false cache now).delays = [] ∧
    (cache = none →
      (fetchWithRetry attempt false cache now).result = .error (.http status)) ∧
    ∀ entry, cache = some entry →
      (fetchWithRetry attempt false cache now).result =
        .ok (.cached entry.data entry.timestamp) := by
  have hret : isRetryableError (.http status) = false := by
    simp only [isRetryableError, decide_eq_false_iff_not]
    omega
  simp only [fetchWithRetry, retryDelays, List.length_cons, List.length_nil,
    fetchWithRetryAux, h0, hret, Bool.false_eq_true, if_false]
  refine ⟨?_, ?_, ?_, ?_⟩
  · cases cache <;> rfl
  · cases cache <;> rfl
  · intro hc; subst hc; rfl
  · intro entry hc; subst hc; rfl

/-- Witness for `C4_non_retryable_fails_fast`: HTTP 404 on the first
attempt with cache entry `{data: 5, timestamp: 9}`. -/
theorem C4_non_retryable_fails_fast_witness :
    (fetchWithRetry (fun _ => Except.error (FetchError.http 404)) false
        (some (⟨5, 9⟩ : CacheEntry Nat)) 0).result =
      .ok (.cached 5 9) :=
  (C4_non_retryable_fails_fast (fun _ => Except.error (FetchError.http 404))
    (some ⟨5, 9⟩) 0 404 (by decide) (by decide) rfl).2.2.2 ⟨5, 9⟩ rfl

/-! ## Watchdog (watchdog module)

Per-service state: `failures[service]` and `lastRecoveryAttempt[service]`
(both start at 0).  `checkService` enumerates processes; when the
service is running a nonzero failure counter is reset; when absent it
calls `handleServiceFailure`, which increments the counter, then — if
the counter has reached `MAX_FAILURES` — skips the restart while
`now - lastRecoveryAttempt < RECOVERY_TIME` and otherwise zeroes the
counter; any path that did not skip records `lastRecoveryAttempt = now`
and launches the restart (backup + kill-zombies + start). -/

/-- `MAX_FAILURES = 5`: maximum failures before giving up. -/
def MAX_FAILURES : Nat := 5

/-- `RECOVERY_TIME = 300000`: wait after max failures (5 minutes). -/
def RECOVERY_TIME : Nat := 300000

/-- Per-service watchdog counters: `this.failures[service]` and
`this.lastRecoveryAttempt[service]`. -/
structure WatchdogState where
  failures : Nat
  lastRecoveryAttempt : Nat
deriving Repr, DecidableEq

/-- Shallow embedding of `Watchdog.handleServiceFailure`; `now` is
`Date.now()`, the `Bool` reports whether a restart was attempted.
`Date.now()` is non-decreasing, and when `now ≥ lastRecoveryAttempt`
truncated subtraction agrees with the JS number subtraction, so `Nat`
subtraction is faithful (and for `now < lastRecoveryAttempt` both give
a value below the positive `RECOVERY_TIME`, i.e. the same branch). -/
def handleServiceFailure (now : Nat) (st : WatchdogState) : WatchdogState × Bool :=
  let failures := st.failures + 1
  if failures ≥ MAX_FAILURES then
    if now - st.lastRecoveryAttempt < RECOVERY_TIME then
      ({ st with failures := failures }, false)
    else
      ({ failures := 0, lastRecoveryAttempt := now }, true)
  else
    ({ failures := failures, lastRecoveryAttempt := now }, true)

/-- Shallow embedding of `Watchdog.checkService`: `isRunning` is the
outcome of the `tasklist` / `ps` probe. -/
def checkService (isRunning : Bool) (now : Nat) (st : WatchdogState) :
    WatchdogState × Bool :=
  if !isRunning then
    handleServiceFailure now st
  else
    (if st.failures > 0 then { st with failures := 0 } else st, false)

/-- Claim C5: when a health check finds the service absent with the
failure counter already at `MAX_FAILURES` or above, no restart happens
while less than `RECOVERY_TIME` has elapsed since the last recovery
attempt; once the cooldown has elapsed, the next observed absence
resets the failure counter to zero and performs exactly one restart
(recording the new recovery time). -/
theorem C5_cooldown_inhibits_then_single_restart (now : Nat) (st : WatchdogState)
    (hmax : st.failures ≥ MAX_FAILURES) :
    (now - st.lastRecoveryAttempt < RECOVERY_TIME →
      checkService false now st = ({ st with failures := st.failures + 1 }, false)) ∧
    (now - st.lastRecoveryAttempt ≥ RECOVERY_TIME →
      checkService false now st = (⟨0, now⟩, true)) := by
  constructor
  · intro hcool
    simp only [checkService, handleServiceFailure, Bool.not_false, if_true]
    rw [if_pos (by omega), if_pos hcool]
  · intro hcool
    simp only [checkService, handleServiceFailure, Bool.not_false, if_true]
    rw [if_pos (by omega), if_neg (by omega)]

/-- Witness for `C5_cooldown_inhibits_then_single_restart`: counter at
5, last recovery at time 0; probed absent at 100000 (inside the 300000
cooldown, restart skipped) — and at 400000 the cooldown branch resets
the counter and restarts. -/
theorem C5_cooldown_inhibits_then_single_restart_witness :
    checkService false 100000 ⟨5, 0⟩ = (⟨6, 0⟩, false) ∧
    checkService false 400000 ⟨5, 0⟩ = (⟨0, 400000⟩, true) :=
  ⟨(C5_cooldown_inhibits_then_single_restart 100000 ⟨5, 0⟩ (by decide)).1 (by decide),
   (C5_cooldown_inhibits_then_single_restart 400000 ⟨5, 0⟩ (by decide)).2 (by decide)⟩

/-! ## SystemProtection: memory monitoring (system_protection module)

`checkMemoryUsage` samples `os.totalmem()` / `os.freemem()` and
computes `usage% = (total - free) / total * 100`; above `memoryLimit`
(90) it calls `handleExcessiveMemoryUsage`, which runs
`collectGarbage()`, samples memory AGAIN, and calls `restartService()`
only if the fresh sample is still above `memoryLimit`; above
`memoryThreshold` (80) but not above the limit it runs
`collectGarbage()` only.  The JS percentage comparison
`(used / total) * 100 > p` is modelled exactly over the integers as
`used * 100 > p * total` (equivalent for `total > 0`; the sampled
percentages are nowhere near double-rounding boundaries). -/

/-- The memory bands of `SystemProtection.config`:
`memoryThreshold = 80`, `memoryLimit = 90`. -/
structure MemConfig where
  memoryThreshold : Nat
  memoryLimit : Nat
deriving Repr, DecidableEq

/-- One `os.totalmem()` / `os.freemem()` sample. -/
structure MemSample where
  total : Nat
  free : Nat
deriving Repr, DecidableEq

/-- `(total - free) / total * 100 > p`, cleared of the division. -/
def usageAbove (s : MemSample) (p : Nat) : Bool :=
  (s.total - s.free) * 100 > p * s.total

/-- Actions taken by one memory check: how many garbage-collection
passes ran and how many service restarts were issued. -/
structure MemActions where
  gcRuns : Nat
  restarts : Nat
deriving Repr, DecidableEq

/-- Shallow embedding of
`SystemProtection.handleExcessiveMemoryUsage`: collect garbage, sample
memory afresh (`postGc`), restart services only if still above the
limit. -/
def handleExcessiveMemoryUsage (cfg : MemConfig) (postGc : MemSample) : MemActions :=
  if usageAbove postGc cfg.memoryLimit then
    { gcRuns := 1, restarts := 1 }
  else
    { gcRuns := 1, restarts := 0 }

/-- Shallow embedding of `SystemProtection.checkMemoryUsage`: `sample`
is the first reading; `postGc` is the reading
`handleExcessiveMemoryUsage` would take after its GC pass. -/
def checkMemoryUsage (cfg : MemConfig) (sample postGc : MemSample) : MemActions :=
  if usageAbove sample cfg.memoryLimit then
    handleExcessiveMemoryUsage cfg postGc
  else if usageAbove sample cfg.memoryThreshold then
    { gcRuns := 1, restarts := 0 }
  else
    { gcRuns := 0, restarts := 0 }

/-- Claim C6: a sample above the warning threshold but not above the
critical limit triggers exactly one GC pass and no restart; a sample
above the critical limit triggers a GC pass and then a restart exactly
when the fresh post-GC sample is still above the critical limit — so
every memory check issues at most one restart. -/
theorem C6_memory_escalation (cfg : MemConfig) (sample postGc : MemSample) :
    (usageAbove sample cfg.memoryThreshold = true →
      usageAbove sample cfg.memoryLimit = false →
      checkMemoryUsage cfg sample postGc = ⟨1, 0⟩) ∧
    (usageAbove sample cfg.memoryLimit = true →
      checkMemoryUsage cfg sample postGc =
        ⟨1, if usageAbove postGc cfg.memoryLimit then 1 else 0⟩) ∧
    (checkMemoryUsage cfg sample postGc).restarts ≤ 1 := by
  refine ⟨?_, ?_, ?_⟩
  · intro hwarn hlim
    simp [checkMemoryUsage, hwarn, hlim]
  · intro hlim
    simp only [checkMemoryUsage, hlim, if_true, handleExcessiveMemoryUsage]
    split <;> simp
  · simp only [checkMemoryUsage, handleExcessiveMemoryUsage]
    split
    · split <;> simp
    · split <;> simp

/-- Witness for `C6_memory_escalation`: the spec's scenarios on a
100-unit machine — 85% used (warn band: GC only), and 95% used with
92% still used post-GC (critical: one restart). -/
theorem C6_memory_escalation_witness :
    checkMemoryUsage ⟨80, 90⟩ ⟨100, 15⟩ ⟨100, 15⟩ = ⟨1, 0⟩ ∧
    checkMemoryUsage ⟨80, 90⟩ ⟨100, 5⟩ ⟨100, 8⟩ = ⟨1, 1⟩ :=
  ⟨(C6_memory_escalation ⟨80, 90⟩ ⟨100, 15⟩ ⟨100, 15⟩).1 (by decide) (by decide),
   (C6_memory_escalation ⟨80, 90⟩ ⟨100, 5⟩ ⟨100, 8⟩).2.1 (by decide)⟩

/-! ## SystemProtection: file integrity (system_protection module)

`checkFileIntegrity` walks `config.criticalProgramFiles`; a file that
does not exist is pushed onto `corruptedFiles` immediately; an existing
file with no entry in `this.criticalFileHashes` is skipped; an existing
file whose current hash differs from the stored hash is pushed.  When
`corruptedFiles` is nonempty, `restoreFromBackup(corruptedFiles)` sorts
the `backup-*` folders newest-first and copies each corrupted file out
of `backups[0]` ONLY — a file absent from that newest folder is logged
`Cannot restore` and left as it is.  Disk, baseline table, and backup
folders are maps from file name to optional content, contents standing
for their SHA-256 hashes. -/

/-- The integrity environment: the critical-file list, the disk, the
recorded baseline hashes, and the backup folders sorted newest first
(as `restoreFromBackup` sorts them by mtime descending). -/
structure IntegrityEnv where
  criticalProgramFiles : List String
  disk : String → Option Nat
  criticalFileHashes : String → Option Nat
  backups : List (String → Option Nat)

/-- The `corruptedFiles` list accumulated by
`SystemProtection.checkFileIntegrity`: missing files first
(unconditionally), then — only for files that exist — skip when no
baseline hash is stored, and flag a hash mismatch. -/
def corruptedFiles (env : IntegrityEnv) : List String :=
  env.criticalProgramFiles.filter fun file =>
    match env.disk file with
    | none => true
    | some currentHash =>
      match env.criticalFileHashes file with
      | none => false
      | some storedHash => currentHash ≠ storedHash

/-- Shallow embedding of `SystemProtection.restoreFromBackup`: with no
backups, restoration is abandoned; otherwise each corrupted file
present in the single newest backup is copied over, and a corrupted
file absent from that backup is left untouched. -/
def restoreFromBackup (backups : List (String → Option Nat))
    (corrupted : List String) (disk : String → Option Nat) : String → Option Nat :=
  match backups with
  | [] => disk
  | latestBackup :: _ =>
    fun file =>
      if file ∈ corrupted then
        match latestBackup file with
        | some content => some content
        | none => disk file
      else disk file

/-- Shallow embedding of `SystemProtection.checkFileIntegrity`: the
disk after the check, with restoration attempted exactly when some file
was flagged. -/
def checkFileIntegrity (env : IntegrityEnv) : String → Option Nat :=
  if (corruptedFiles env).length > 0 then
    restoreFromBackup env.backups (corruptedFiles env) env.disk
  else env.disk

/-- Modelled from the spec's words, for comparison with the code: the
content a file has in "the newest backup snapshot containing it" —
the first (newest, since `backups` is sorted newest first) folder in
which the file is present. -/
def newestBackupContentOf (backups : List (String → Option Nat))
    (file : String) : Option Nat :=
  match backups.find? (fun b => (b file).isSome) with
  | some b => b file
  | none => none

/-- The C7 counterexample environment: the critical file "a" is on disk
with hash 1 against a baseline of 2 (mismatch); the newest backup
folder does not contain "a", but the older one holds it with hash 5. -/
def envC7 : IntegrityEnv :=
  { criticalProgramFiles := ["a"]
    disk := fun file => if file = "a" then some 1 else none
    criticalFileHashes := fun file => if file = "a" then some 2 else none
    backups := [fun _ => none, fun file => if file = "a" then some 5 else none] }

/-- Claim C7, counterexample: file "a" is flagged as corrupted and the
newest backup snapshot containing it holds content 5, yet the check
leaves "a" at its corrupt content 1 — `restoreFromBackup` consults only
`backups[0]`, never an older snapshot that does contain the file. -/
theorem C7_counterexample_older_snapshot_ignored :
    corruptedFiles envC7 = ["a"] ∧
    newestBackupContentOf envC7.backups "a" = some 5 ∧
    checkFileIntegrity envC7 "a" = some 1 ∧
    checkFileIntegrity envC7 "a" ≠ some 5 :=
  ⟨rfl, rfl, rfl, by decide⟩

/-- Claim C7 as amended: every critical file flagged by the integrity
check (hash mismatch or missing) is restored from the single NEWEST
backup snapshot when that snapshot contains it, and is left untouched
when the newest snapshot does not contain it (older snapshots are never
consulted); files not flagged are left untouched, and with no backup at
all the disk is unchanged. -/
theorem C7_restore_newest_backup_only (env : IntegrityEnv) :
    (∀ file latestBackup rest, env.backups = latestBackup :: rest →
      file ∈ corruptedFiles env →
      checkFileIntegrity env file =
        (match latestBackup file with
         | some content => some content
         | none => env.disk file)) ∧
    (∀ file, file ∉ corruptedFiles env → checkFileIntegrity env file = env.disk file) ∧
    (env.backups = [] → checkFileIntegrity env = env.disk) := by
  refine ⟨?_, ?_, ?_⟩
  · intro file latestBackup rest hb hmem
    have hpos : (corruptedFiles env).length > 0 :=
      List.length_pos.mpr (List.ne_nil_of_mem hmem)
    simp only [checkFileIntegrity, if_pos hpos, restoreFromBackup, hb, if_pos hmem]
  · intro file hmem
    simp only [checkFileIntegrity]
    split
    · cases hbk : env.backups with
      | nil => simp only [restoreFromBackup, hbk]
      | cons latestBackup rest => simp only [restoreFromBackup, hbk, if_neg hmem]
    · rfl
  · intro hb
    simp only [checkFileIntegrity, restoreFromBackup, hb]
    split <;> rfl

/-- The C7 witness environment: "a" mismatched, and the newest backup
does contain "a" with content 9, so it is restored from there. -/
def envC7w : IntegrityEnv :=
  { criticalProgramFiles := ["a"]
    disk := fun file => if file = "a" then some 1 else none
    criticalFileHashes := fun file => if file = "a" then some 2 else none
    backups := [fun file => if file = "a" then some 9 else none] }

/-- Witness for `C7_restore_newest_backup_only`: the mismatched file is
rewritten with the newest backup's content. -/
theorem C7_restore_newest_backup_only_witness :
    checkFileIntegrity envC7w "a" = some 9 :=
  (C7_restore_newest_backup_only envC7w).1 "a"
    (fun file => if file = "a" then some 9 else none) [] rfl (by decide)

/-- The C9 counterexample environment: the critical file "a" is missing
from disk and has NO recorded baseline hash; a backup containing "a"
with content 7 exists. -/
def envC9 : IntegrityEnv :=
  { criticalProgramFiles := ["a"]
    disk := fun _ => none
    criticalFileHashes := fun _ => none
    backups := [fun file => if file = "a" then some 7 else none] }

/-- Claim C9, counterexample: a missing critical file with no recorded
baseline is reported corrupted and restored — the existence check of
`checkFileIntegrity` runs before the no-stored-hash skip, so the
first-run skip only protects files that are present on disk. -/
theorem C9_counterexample_missing_file_without_baseline :
    corruptedFiles envC9 = ["a"] ∧
    checkFileIntegrity envC9 "a" = some 7 :=
  ⟨rfl, rfl⟩

/-- Claim C9 as amended: a critical file with no recorded baseline hash
is skipped — neither reported corrupted nor touched by restoration —
exactly when it exists on disk; when such a file is missing it is
reported corrupted (the missing-file check precedes the baseline
check). -/
theorem C9_no_baseline_skipped_only_if_present (env : IntegrityEnv) (file : String)
    (hmem : file ∈ env.criticalProgramFiles)
    (hbase : env.criticalFileHashes file = none) :
    (∀ content, env.disk file = some content →
      file ∉ corruptedFiles env ∧ checkFileIntegrity env file = env.disk file) ∧
    (env.disk file = none → file ∈ corruptedFiles env) := by
  constructor
  · intro content hdisk
    have hnot : file ∉ corruptedFiles env := by
      simp only [corruptedFiles, List.mem_filter, hdisk, hbase]
      simp
    exact ⟨hnot, (C7_restore_newest_backup_only env).2.1 file hnot⟩
  · intro hdisk
    simp only [corruptedFiles, List.mem_filter, hdisk]
    exact ⟨hmem, trivial⟩

/-- Witness for `C9_no_baseline_skipped_only_if_present`: file "a"
present with content 3 and no baseline is neither flagged nor
changed. -/
theorem C9_no_baseline_skipped_only_if_present_witness :
    checkFileIntegrity
      { criticalProgramFiles := ["a"]
        disk := fun _ => some 3
        criticalFileHashes := fun _ => none
        backups := [] } "a" = some 3 :=
  ((C9_no_baseline_skipped_only_if_present
      { criticalProgramFiles := ["a"]
        disk := fun _ => some 3
        criticalFileHashes := fun _ => none
        backups := [] } "a" (by decide) rfl).1 3 rfl).2

/-! ## ErrorRecovery (error_recovery module)

`this.failureCount` maps each `operationName` to a running count.
`withRetry(operation, operationName)` makes up to `maxRetries = 3`
attempts; every caught failure calls `recordFailure(operationName)` and
logs, and between attempts it sleeps `retryDelays[attempt] || 1000`
(`retryDelays = [1000, 5000, 15000]`).  `recordFailure` increments the
count, and when the count has reached `failureThreshold = 10` and the
name is in `criticalServices`, calls `initiateRecovery`, which FIRST
resets the count to zero and then launches the restart script.
Neither `recordFailure` nor `initiateRecovery` consults a clock:
there is no time-based cooldown in this component. -/

/-- The retry/recovery configuration of `ErrorRecovery.constructor`. -/
structure ERConfig where
  maxRetries : Nat
  erRetryDelays : List Nat
  failureThreshold : Nat
  criticalServices : List String
deriving Repr, DecidableEq

/-- The constructor defaults: `maxRetries: 3`,
`retryDelays: [1000, 5000, 15000]`, `failureThreshold: 10`,
`criticalServices: ['fileOrganizer', 'apiServer']`. -/
def erDefault : ERConfig :=
  { maxRetries := 3
    erRetryDelays := [1000, 5000, 15000]
    failureThreshold := 10
    criticalServices := ["fileOrganizer", "apiServer"] }

/-- Shallow embedding of `ErrorRecovery.recordFailure` (with the
`initiateRecovery` counter reset inlined, as `initiateRecovery` resets
the count before launching the restart script): the new
`failureCount`, and whether recovery was initiated. -/
def recordFailure (cfg : ERConfig) (serviceName : String)
    (failureCount : String → Nat) : (String → Nat) × Bool :=
  let count := failureCount serviceName + 1
  if count ≥ cfg.failureThreshold ∧ serviceName ∈ cfg.criticalServices then
    (fun s => if s = serviceName then 0 else failureCount s, true)
  else
    (fun s => if s = serviceName then count else failureCount s, false)

/-- Observable outcome of one `withRetry` call: whether some attempt
succeeded, how many attempts failed, and how many recoveries the
accumulated failures triggered. -/
structure RetryOutcome where
  succeeded : Bool
  failedAttempts : Nat
  recoveries : Nat
deriving Repr, DecidableEq

/-- Shallow embedding of the `withRetry` attempt loop from loop index
`attempt` with `budget = maxRetries - attempt` iterations left;
`outcomes i = true` means the operation's `i`-th attempt succeeds. -/
def withRetryAux (cfg : ERConfig) (serviceName : String) (outcomes : Nat → Bool) :
    (budget : Nat) → (attempt : Nat) → (String → Nat) →
      (String → Nat) × RetryOutcome
  | 0 => fun _ st => (st, { succeeded := false, failedAttempts := 0, recoveries := 0 })
  | budget + 1 => fun attempt st =>
    if outcomes attempt then
      (st, { succeeded := true, failedAttempts := 0, recoveries := 0 })
    else
      let step := recordFailure cfg serviceName st
      let rest := withRetryAux cfg serviceName outcomes budget (attempt + 1) step.1
      (rest.1,
        { succeeded := rest.2.succeeded
          failedAttempts := rest.2.failedAttempts + 1
          recoveries := rest.2.recoveries + (if step.2 then 1 else 0) })

/-- `withRetry(operation, operationName)` runs the loop
`for (attempt = 0; attempt < maxRetries; attempt++)`. -/
def withRetry (cfg : ERConfig) (serviceName : String) (outcomes : Nat → Bool)
    (failureCount : String → Nat) : (String → Nat) × RetryOutcome :=
  withRetryAux cfg serviceName outcomes cfg.maxRetries 0 failureCount

/-- A sequence of failures for one service, each stamped with the time
it is recorded; returns the times at which `recordFailure` initiated a
recovery.  The timestamps are carried along purely to OBSERVE when
recoveries fire: `recordFailure` itself never reads them, exactly as in
the source. -/
def recoveryTimes (cfg : ERConfig) (serviceName : String) :
    List Nat → (String → Nat) → List Nat
  | [], _ => []
  | t :: ts, st =>
    let step := recordFailure cfg serviceName st
    let rest := recoveryTimes cfg serviceName ts step.1
    if step.2 then t :: rest else rest

/-- Iterated fully-failing `withRetry` calls for one service: the state
after `n` calls whose operations fail on every attempt, and the total
number of recoveries those calls triggered. -/
def iterateFailedCalls (cfg : ERConfig) (serviceName : String) :
    Nat → (String → Nat) → (String → Nat) × Nat
  | 0, st => (st, 0)
  | n + 1, st =>
    let call := withRetry cfg serviceName (fun _ => false) st
    let rest := iterateFailedCalls cfg serviceName n call.1
    (rest.1, call.2.recoveries + rest.2)

/-- Claim C8, counterexample: twenty failures recorded back-to-back
for the critical service `apiServer`, all at the same instant `t = 0`,
trigger TWO recoveries — at the 10th and at the 20th failure — the
second zero milliseconds after the first.  `recordFailure` and
`initiateRecovery` never consult a clock, so a recovery issued during
any positive cooldown window after the previous one is not inhibited:
recovery is not debounced by time. -/
theorem C8_counterexample_no_time_debounce :
    recoveryTimes erDefault "apiServer" (List.replicate 20 0) (fun _ => 0) = [0, 0] := by
  decide

/-- Claim C8 as amended: the only debounce in `ErrorRecovery` is
count-based — after a recovery resets the service's failure counter to
zero, no recovery re-triggers until `failureThreshold` further failures
have been recorded for that name, regardless of the times at which they
occur; a counter invariant `count + remaining < threshold` keeps every
intermediate check below the threshold. -/
theorem C8_count_based_debounce (cfg : ERConfig) (serviceName : String) :
    ∀ (times : List Nat) (st : String → Nat),
      st serviceName + times.length < cfg.failureThreshold →
      recoveryTimes cfg serviceName times st = [] := by
  intro times
  induction times with
  | nil => intro st _; rfl
  | cons t ts ih =>
    intro st h
    have hcond : ¬(st serviceName + 1 ≥ cfg.failureThreshold ∧
        serviceName ∈ cfg.criticalServices) := by
      intro hc
      have := hc.1
      simp only [List.length_cons] at h
      omega
    simp only [recoveryTimes, recordFailure, if_neg hcond, if_neg Bool.false_ne_true]
    apply ih
    have hlt : st serviceName + 1 + ts.length < cfg.failureThreshold := by
      simp only [List.length_cons] at h
      omega
    simpa using hlt

/-- Witness for `C8_count_based_debounce`: three failures for
`apiServer` starting from a zero counter (3 < 10) trigger nothing. -/
theorem C8_count_based_debounce_witness :
    recoveryTimes erDefault "apiServer" [1, 2, 3] (fun _ => 0) = [] :=
  C8_count_based_debounce erDefault "apiServer" [1, 2, 3] (fun _ => 0) (by decide)

/-- A fully-failing `withRetry` loop below the threshold: each of the
`budget` failed attempts bumps the counter by one and triggers no
recovery. -/
theorem withRetryAux_all_fail_count (cfg : ERConfig) (serviceName : String) :
    ∀ (budget attempt : Nat) (st : String → Nat),
      st serviceName + budget < cfg.failureThreshold →
      ((withRetryAux cfg serviceName (fun _ => false) budget attempt st).1 serviceName =
        st serviceName + budget) ∧
      (withRetryAux cfg serviceName (fun _ => false) budget attempt st).2 =
        { succeeded := false, failedAttempts := budget, recoveries := 0 } := by
  intro budget
  induction budget with
  | zero => intro attempt st _; exact ⟨by simp [withRetryAux], rfl⟩
  | succ b ih =>
    intro attempt st h
    have hcond : ¬(st serviceName + 1 ≥ cfg.failureThreshold ∧
        serviceName ∈ cfg.criticalServices) := by
      intro hc
      have := hc.1
      omega
    have hst : (fun s => if s = serviceName then st serviceName + 1 else st s)
        serviceName = st serviceName + 1 := by simp
    obtain ⟨h1, h2⟩ := ih (attempt + 1)
      (fun s => if s = serviceName then st serviceName + 1 else st s)
      (by rw [hst]; omega)
    have hfix : (if serviceName = serviceName then st serviceName + 1 else st serviceName) =
        st serviceName + 1 := by simp
    simp only [withRetryAux, recordFailure, if_neg hcond, Bool.false_eq_true, if_false]
    refine ⟨by rw [h1, hfix]; omega, by rw [h2]⟩

/-- Claim C10: the failure counter is bumped once per failed ATTEMPT,
not once per `withRetry` call — a single call whose operation fails on
all `maxRetries = 3` attempts (below the threshold) raises the name's
count by exactly 3 — and hence the `failureThreshold` of 10 is reached
by attempts accumulated across only 4 fully-failing calls (4 < 10),
the 4th call triggering the recovery. -/
theorem C10_failure_counter_per_attempt (serviceName : String) (st : String → Nat)
    (h : st serviceName + 3 < 10) :
    ((withRetry erDefault serviceName (fun _ => false) st).1 serviceName =
      st serviceName + 3) ∧
    (iterateFailedCalls erDefault "fileOrganizer" 4 (fun _ => 0)).2 = 1 ∧ 4 < 10 := by
  refine ⟨?_, by decide, by decide⟩
  exact (withRetryAux_all_fail_count erDefault serviceName 3 0 st h).1

/-- Witness for `C10_failure_counter_per_attempt`: one fully-failing
call for `fileOrganizer` from a zero counter leaves the count at 3. -/
theorem C10_failure_counter_per_attempt_witness :
    (withRetry erDefault "fileOrganizer" (fun _ => false) (fun _ => 0)).1
      "fileOrganizer" = 0 + 3 :=
  (C10_failure_counter_per_attempt "fileOrganizer" (fun _ => 0) (by decide)).1
